import Mathlib

/-!
Shallow embedding of the SMM Matrix web application
(`smm-matrix-node.js`, with the checkout routes of the earlier variant),
together with theorems settling the spec claims.

Conventions of the embedding:
* SQLite rows become structures; each table is a `List` of rows inside `Store`.
  `AUTOINCREMENT` ids are modelled by a per-table `next…Id` counter
  (SQLite never reuses rowids of an `AUTOINCREMENT` table).
* `created_at` columns (pure DB-side `datetime('now')` defaults that no
  handler logic reads) are not modelled.
* Timestamps (`Date.now()`, `login_locked_until`) are naturals counting
  milliseconds.
* SQL `NULL` string columns are modelled as `""`, nullable `user_id` columns
  as `Option Nat`.
* `price_usd REAL` is modelled as `Rat`; all prices the app ever writes are
  integers, so no float rounding is observable.
* The SHA-256 digest is an external library call; handlers that hash take an
  arbitrary `hash : String → String` parameter, so every theorem holds for
  the real digest function.
* Express session cookies become an explicit `Session` value threaded through
  the handlers; JS `undefined`/`null` session fields are `Option`.
-/

namespace SmmMatrix

/-- Row of `users` (id, email UNIQUE, password_hash, name, role, instagram,
unsubscribed INTEGER 0/1). -/
structure User where
  id : Nat
  email : String
  password_hash : String
  name : String
  role : String
  instagram : String
  unsubscribed : Nat
deriving Repr, DecidableEq

/-- Row of `posts`. -/
structure Post where
  id : Nat
  title : String
  author : String
  image : String
  excerpt : String
  body : String
  views : Nat
deriving Repr, DecidableEq

/-- Row of `plans`; `features` is the JSON-decoded list of strings. -/
structure Plan where
  id : Nat
  name : String
  price_usd : Rat
  features : List String
deriving Repr, DecidableEq

/-- Row of `orders`. -/
structure Order where
  id : Nat
  user_id : Nat
  plan_id : Nat
  ig_username : String
  notes : String
  status : String
deriving Repr, DecidableEq

/-- Row of `reviews`. -/
structure Review where
  id : Nat
  name : String
  stars : Nat
  content : String
  avatar : String
deriving Repr, DecidableEq

/-- Row of `tickets`; `user_id` is nullable (anonymous contact tickets). -/
structure Ticket where
  id : Nat
  user_id : Option Nat
  email : String
  instagram : String
  subject : String
  message : String
  status : String
deriving Repr, DecidableEq

/-- Row of `metrics` (append-only snapshots). -/
structure Metric where
  id : Nat
  user_id : Nat
  likes : Int
  follows : Int
deriving Repr, DecidableEq

/-- Row of `targets`. -/
structure Target where
  id : Nat
  user_id : Nat
  niche : String
  competitors : String
  hashtags : String
  geo : String
  notes : String
deriving Repr, DecidableEq

/-- Row of `statuses` (`user_id` is UNIQUE in the schema). -/
structure StatusRow where
  id : Nat
  user_id : Nat
  following_status : String
  like_enabled : Nat
  follow_enabled : Nat
  comment_enabled : Nat
  dm_enabled : Nat
  hashtags : String
  team_complaint : String
  client_complaint : String
  complaint_explanation : String
deriving Repr, DecidableEq

/-- Row of `subscribers`. -/
structure Subscriber where
  id : Nat
  email : String
deriving Repr, DecidableEq

/-- The whole SQLite database. -/
structure Store where
  users : List User
  posts : List Post
  plans : List Plan
  orders : List Order
  reviews : List Review
  tickets : List Ticket
  metrics : List Metric
  targets : List Target
  statuses : List StatusRow
  subscribers : List Subscriber
  nextUserId : Nat
  nextPostId : Nat
  nextOrderId : Nat
  nextTicketId : Nat
  nextMetricId : Nat
  nextTargetId : Nat
  nextStatusId : Nat
  nextSubscriberId : Nat
deriving Repr, DecidableEq

/-- The cookie-session: `uid`, `failed_login`, `login_locked_until`
(each absent/`null` until first written). -/
structure Session where
  uid : Option Nat
  failed_login : Option Nat
  login_locked_until : Option Nat
deriving Repr, DecidableEq

/-- The request data the modelled handlers inspect: the session and the
`Accept` header. -/
structure Req where
  session : Session
  accept : Option String
deriving Repr, DecidableEq

/-- The error variants of `LoginView`: the lockout message (carrying the
reported wait in seconds) and the invalid-credentials message. -/
inductive LoginError where
  | lockedOut (waitSec : Nat)
  | invalidCredentials
deriving Repr, DecidableEq

/-- Admin dashboard aggregates (the `stats` object of `GET /dashboard`). -/
structure DashStats where
  users : Nat
  pendingOrders : Nat
  declinedCount : Nat
  subscribers : Nat
  totalAccounting : Rat
deriving Repr, DecidableEq

/-- HTTP responses the modelled handlers produce. -/
inductive Resp where
  | redirect (loc : String)
  | forbidden
  | notFound (msg : String)
  | loginPage (err : Option LoginError)
  | signupPage (err : Option String)
  | blogPage (post : Post)
  | dashboardPage (stats : DashStats)
  | htmlPage
deriving Repr, DecidableEq

/-- The rendered text of a `LoginView` error. -/
def loginErrorMsg : LoginError → String
  | .lockedOut w => "Too many attempts — try again in " ++ toString w ++ " seconds."
  | .invalidCredentials => "Invalid credentials"

/- ------------------------- Helpers ------------------------- -/

/-- The double-quote character. -/
def dquote : Char := Char.ofNat 34

/-- The apostrophe character. -/
def apos : Char := Char.ofNat 39

/-- Entity `"&amp;"` as a character list. -/
def ampEnt : List Char := "&amp;".data

/-- Entity `"&lt;"` as a character list. -/
def ltEnt : List Char := "&lt;".data

/-- Entity `"&gt;"` as a character list. -/
def gtEnt : List Char := "&gt;".data

/-- Entity `"&quot;"` as a character list. -/
def quotEnt : List Char := "&quot;".data

/-- The numeric entity for the apostrophe, `&#39;`, as a character list. -/
def aposEnt : List Char := "&#39".data ++ [Char.ofNat 59]

/-- The five entities `escapeHtml` emits. -/
def entities : List (List Char) := [ampEnt, ltEnt, gtEnt, quotEnt, aposEnt]

/-- Per-character replacement of `escapeHtml`
(the regex `/[&<>"']/g` with its replacement map). -/
def escChar (c : Char) : List Char :=
  if c = '&' then ampEnt
  else if c = '<' then ltEnt
  else if c = '>' then gtEnt
  else if c = dquote then quotEnt
  else if c = apos then aposEnt
  else [c]

/-- Global replacement over a character list. -/
def escapeHtmlList : List Char → List Char
  | [] => []
  | c :: rest => escChar c ++ escapeHtmlList rest

/-- Function `escapeHtml(s)`: `String(s || '')` maps `null`/`undefined` (modelled as
`none`) to `""`, then every `& < > " '` is replaced by its entity. -/
def escapeHtml (s : Option String) : String :=
  String.mk (escapeHtmlList (s.getD "").data)

/-- Does `hay` start with `needle`? -/
def startsWithList : List Char → List Char → Bool
  | [], _ => true
  | _ :: _, [] => false
  | n :: ns, h :: hs => n == h && startsWithList ns hs

/-- Does `hay` contain `needle` as a contiguous run (JS `String.includes`)? -/
def hasSubList (needle : List Char) : List Char → Bool
  | [] => needle.isEmpty
  | h :: hs => startsWithList needle (h :: hs) || hasSubList needle hs

/-- Test `req.headers.accept && req.headers.accept.includes('text/html')`.
A missing header is `none`; the JS falsiness check on the empty string is
absorbed because `""` cannot contain `"text/html"`. -/
def acceptsHtml (accept : Option String) : Bool :=
  match accept with
  | some a => hasSubList "text/html".data a.data
  | none => false

/-- JS `String.prototype.toLowerCase()`, written over the character list so
that it evaluates by kernel reduction. -/
def toLowerStr (s : String) : String := String.mk (s.data.map Char.toLower)

/- ------------------------- Session / access control ------------------------- -/

/-- Helper `authed(req)`: looks the session's `uid` up in `users`. -/
def authed (st : Store) (sess : Session) : Option User :=
  match sess.uid with
  | some uid => st.users.find? (fun u => u.id == uid)
  | none => none

/-- The rejection `requireRole` sends: redirect to `/login` for HTML-accepting
clients, `403 Forbidden` otherwise. -/
def rejectResp (req : Req) : Resp :=
  if acceptsHtml req.accept then Resp.redirect "/login" else Resp.forbidden

/-- Gate `requireRole(req, res, roles)`: returns the principal, or responds with
`rejectResp` (the handlers abort on that branch via
`if (!me || res.headersSent) return`). -/
def requireRole (st : Store) (req : Req) (roles : List String) : Except Resp User :=
  match authed st req.session with
  | none => Except.error (rejectResp req)
  | some u =>
    if roles.contains u.role then Except.ok u else Except.error (rejectResp req)

/- ------------------------- Row-insert helpers ------------------------- -/

/-- Statement `INSERT OR IGNORE INTO statuses(user_id) VALUES (?)`: `user_id` is UNIQUE,
so the insert is skipped when a row for `uid` exists; all other columns take
their schema defaults. -/
def insertStatusIgnore (st : Store) (uid : Nat) : Store :=
  if st.statuses.any (fun r => r.user_id == uid) then st
  else
    { st with
      statuses := st.statuses ++
        [{ id := st.nextStatusId, user_id := uid,
           following_status := "Select status",
           like_enabled := 0, follow_enabled := 1,
           comment_enabled := 0, dm_enabled := 0,
           hashtags := "", team_complaint := "", client_complaint := "",
           complaint_explanation := "" }],
      nextStatusId := st.nextStatusId + 1 }

/-- Statement `INSERT OR IGNORE INTO targets(...)`: `targets` has no UNIQUE constraint,
so the `OR IGNORE` can never fire and the row is always inserted. -/
def insertTargets (st : Store) (uid : Nat)
    (niche competitors hashtags geo notes : String) : Store :=
  { st with
    targets := st.targets ++
      [{ id := st.nextTargetId, user_id := uid, niche := niche,
         competitors := competitors, hashtags := hashtags, geo := geo,
         notes := notes }],
    nextTargetId := st.nextTargetId + 1 }

/-- Statement `INSERT INTO metrics(user_id,likes,follows)` (also used for the
`OR IGNORE` variant: `metrics` has no UNIQUE constraint). -/
def insertMetric (st : Store) (uid : Nat) (likes follows : Int) : Store :=
  { st with
    metrics := st.metrics ++
      [{ id := st.nextMetricId, user_id := uid, likes := likes,
         follows := follows }],
    nextMetricId := st.nextMetricId + 1 }

/- ------------------------- Auth handlers ------------------------- -/

/-- Result of `POST /login`: the updated session, the response, and whether
the handler executed the `SELECT * FROM users WHERE email=?` lookup. -/
structure LoginOut where
  sess : Session
  resp : Resp
  usersRead : Bool
deriving Repr, DecidableEq

/-- The guard `lockedUntil && Date.now() < lockedUntil`
(a `0` or `null` timestamp is falsy). -/
def lockActive (sess : Session) (now : Nat) : Bool :=
  match sess.login_locked_until with
  | some l => decide (0 < l ∧ now < l)
  | none => false

/-- Expression `Math.ceil((lockedUntil - Date.now()) / 1000)` over naturals. -/
def waitSecOf (l now : Nat) : Nat := (l - now + 999) / 1000

/-- The failure path of `POST /login`: increment `failed_login`
(`(req.session.failed_login || 0) + 1`); once it reaches 6 set
`login_locked_until = Date.now() + 5*60*1000`. -/
def loginFailSess (sess : Session) (now : Nat) : Session :=
  let failed := sess.failed_login.getD 0 + 1
  { sess with
    failed_login := some failed,
    login_locked_until :=
      if 6 ≤ failed then some (now + 5 * 60 * 1000)
      else sess.login_locked_until }

/-- Handler `POST /login`. `hash` stands for `sha256`; `now` for `Date.now()`. -/
def postLogin (hash : String → String) (st : Store) (sess : Session) (now : Nat)
    (email password : String) : LoginOut :=
  if lockActive sess now then
    { sess := sess,
      resp := Resp.loginPage
        (some (LoginError.lockedOut (waitSecOf (sess.login_locked_until.getD 0) now))),
      usersRead := false }
  else
    match st.users.find? (fun u => u.email == toLowerStr email) with
    | some row =>
      if row.password_hash == hash password then
        { sess := { uid := some row.id, failed_login := some 0,
                    login_locked_until := none },
          resp := Resp.redirect
            (if row.role == "admin" then "/dashboard"
             else if row.role == "staff" then "/staff" else "/"),
          usersRead := true }
      else
        { sess := loginFailSess sess now,
          resp := Resp.loginPage (some LoginError.invalidCredentials),
          usersRead := true }
    | none =>
      { sess := loginFailSess sess now,
        resp := Resp.loginPage (some LoginError.invalidCredentials),
        usersRead := true }

/-- Result of a handler that can touch the store, the session and respond. -/
structure HandlerOut where
  st : Store
  sess : Session
  resp : Resp
deriving Repr, DecidableEq

/-- Handler `POST /signup`. The `users` insert is the only statement in the `try`
block that can throw (UNIQUE email); the `catch` renders the
"Email already exists" page with nothing inserted. -/
def postSignup (hash : String → String) (st : Store) (sess : Session)
    (name email instagram password : String) : HandlerOut :=
  if email == "" || password == "" then
    { st := st, sess := sess,
      resp := Resp.signupPage (some "Email & password required") }
  else if st.users.any (fun u => u.email == toLowerStr email) then
    { st := st, sess := sess,
      resp := Resp.signupPage (some "Email already exists") }
  else
    let uid := st.nextUserId
    let st1 : Store :=
      { st with
        users := st.users ++
          [{ id := uid, email := toLowerStr email, password_hash := hash password,
             name := name, instagram := instagram, role := "user",
             unsubscribed := 0 }],
        nextUserId := uid + 1 }
    let st2 := insertStatusIgnore st1 uid
    let st3 := insertTargets st2 uid "" "" "" "" ""
    let st4 := insertMetric st3 uid 10 8
    { st := st4, sess := { sess with uid := some uid },
      resp := Resp.redirect "/" }

/- ------------------------- Blog ------------------------- -/

/-- Handler `GET /blog/:id`: `UPDATE posts SET views = views + 1 WHERE id=?` runs
first, then the post is selected; a missing id yields `404 Not found`
(the update matched no row in that case). -/
def getBlogId (st : Store) (id : Nat) : Store × Resp :=
  let st1 : Store :=
    { st with
      posts := st.posts.map
        (fun p => if p.id == id then { p with views := p.views + 1 } else p) }
  match st1.posts.find? (fun p => p.id == id) with
  | none => (st1, Resp.notFound "Not found")
  | some post => (st1, Resp.blogPage post)

/- ------------------------- Admin dashboard ------------------------- -/

/-- Query `SELECT SUM(p.price_usd) FROM orders o JOIN plans p ON p.id=o.plan_id
WHERE o.status='paid'`, with the trailing `|| 0` turning SQL `NULL`
(no matching rows) into `0`. -/
def totalAccounting (st : Store) : Rat :=
  (((st.orders.filter (fun o => o.status == "paid")).flatMap
      (fun o => (st.plans.filter (fun p => p.id == o.plan_id)).map Plan.price_usd)).sum)

/-- The `stats` object of `GET /dashboard`. -/
def dashboardStats (st : Store) : DashStats :=
  { users := st.users.length,
    pendingOrders := (st.orders.filter (fun o => o.status == "pending")).length,
    declinedCount :=
      (st.orders.filter
        (fun o => o.status == "declined" || o.status == "cancelled")).length,
    subscribers := st.subscribers.length,
    totalAccounting := totalAccounting st }

/-- Handler `GET /dashboard` (admin only; read-only). -/
def getDashboard (st : Store) (req : Req) : Resp :=
  match requireRole st req ["admin"] with
  | Except.error r => r
  | Except.ok _ => Resp.dashboardPage (dashboardStats st)

/- ------------------------- Contact / ticket / subscribe ------------------------- -/

/-- Handler `POST /contact_submit`: inserts an anonymous ticket. -/
def postContactSubmit (st : Store) (name email instagram message : String) :
    Store × Resp :=
  ({ st with
      tickets := st.tickets ++
        [{ id := st.nextTicketId, user_id := none, email := email,
           instagram := instagram,
           subject := "Contact: " ++ (if name == "" then "Guest" else name),
           message := message, status := "open" }],
      nextTicketId := st.nextTicketId + 1 },
   Resp.redirect "/contact")

/-- Handler `POST /ticket`: 403 when unauthenticated, otherwise inserts a ticket for
the logged-in user and redirects to the referer (or `/`). -/
def postTicket (st : Store) (sess : Session) (subject message : String)
    (referer : Option String) : Store × Resp :=
  match authed st sess with
  | none => (st, Resp.forbidden)
  | some u =>
    ({ st with
        tickets := st.tickets ++
          [{ id := st.nextTicketId, user_id := some u.id, email := u.email,
             instagram := u.instagram, subject := subject, message := message,
             status := "open" }],
        nextTicketId := st.nextTicketId + 1 },
     Resp.redirect (referer.getD "/"))

/-- Handler `POST /subscribe`: trims the email, skips empty input; the `subscribers`
insert has no constraint that could fire, so the `try/catch` never swallows
anything. -/
def postSubscribe (st : Store) (email0 : String) (referer : Option String) :
    Store × Resp :=
  let email := email0.trim
  if email == "" then (st, Resp.redirect (referer.getD "/"))
  else
    ({ st with
        subscribers := st.subscribers ++
          [{ id := st.nextSubscriberId, email := email }],
        nextSubscriberId := st.nextSubscriberId + 1 },
     Resp.redirect (referer.getD "/"))

/- ------------------------- Checkout (variant file) ------------------------- -/

/-- Handler `POST /checkout`: auth first, then plan lookup, then an `orders` insert
with status hard-coded to `'paid'` (the explicit payment-gateway placeholder:
no external call exists in the handler). -/
def postCheckout (st : Store) (sess : Session) (plan_id : Nat)
    (ig_username notes : String) : Store × Resp :=
  match authed st sess with
  | none => (st, Resp.redirect "/login")
  | some user =>
    match st.plans.find? (fun p => p.id == plan_id) with
    | none => (st, Resp.notFound "Plan not found")
    | some plan =>
      ({ st with
          orders := st.orders ++
            [{ id := st.nextOrderId, user_id := user.id, plan_id := plan.id,
               ig_username := ig_username, notes := notes, status := "paid" }],
          nextOrderId := st.nextOrderId + 1 },
       Resp.redirect (if user.role == "admin" then "/dashboard" else "/"))

/- ------------------------- Admin mutations ------------------------- -/

/-- Handler `POST /admin/create_post` (title required; a fresh post has 0 views). -/
def postAdminCreatePost (st : Store) (req : Req)
    (title image excerpt body : String) : Store × Resp :=
  match requireRole st req ["admin"] with
  | Except.error r => (st, r)
  | Except.ok me =>
    if title == "" then (st, Resp.redirect "/dashboard")
    else
      ({ st with
          posts := st.posts ++
            [{ id := st.nextPostId, title := title,
               author := if me.name == "" then me.email else me.name,
               image := image, excerpt := excerpt, body := body, views := 0 }],
          nextPostId := st.nextPostId + 1 },
       Resp.redirect "/dashboard")

/-- Handler `POST /admin/assign_role`: `UPDATE users SET role=? WHERE email=?`. -/
def postAdminAssignRole (st : Store) (req : Req) (email0 role0 : String) :
    Store × Resp :=
  match requireRole st req ["admin"] with
  | Except.error r => (st, r)
  | Except.ok _ =>
    let email := toLowerStr email0
    let role := if role0 == "" then "user" else role0
    if email == "" then (st, Resp.redirect "/dashboard")
    else
      ({ st with
          users := st.users.map
            (fun u => if u.email == email then { u with role := role } else u) },
       Resp.redirect "/dashboard")

/- ------------------------- Staff mutations ------------------------- -/

/-- Handler `POST /staff/add`: inserts a staff user (duplicate email throws and is
silently ignored, inserting nothing); the `instagram` column is left NULL,
modelled as `""`. -/
def postStaffAdd (hash : String → String) (st : Store) (req : Req)
    (email password name : String) : Store × Resp :=
  match requireRole st req ["staff", "admin"] with
  | Except.error r => (st, r)
  | Except.ok _ =>
    if email == "" || password == "" then (st, Resp.redirect "/staff")
    else if st.users.any (fun u => u.email == toLowerStr email) then
      (st, Resp.redirect "/staff")
    else
      let uid := st.nextUserId
      let st1 : Store :=
        { st with
          users := st.users ++
            [{ id := uid, email := toLowerStr email,
               password_hash := hash password, name := name, role := "staff",
               instagram := "", unsubscribed := 0 }],
          nextUserId := uid + 1 }
      let st2 := insertStatusIgnore st1 uid
      let st3 := insertMetric st2 uid 0 0
      (st3, Resp.redirect "/staff")

/-- Statement `UPDATE users SET role=? WHERE id=?`. -/
def setRoleById (st : Store) (id : Nat) (role : String) : Store :=
  { st with
    users := st.users.map
      (fun u => if u.id == id then { u with role := role } else u) }

/-- Handler `POST /staff/promote`. -/
def postStaffPromote (st : Store) (req : Req) (id : Nat) : Store × Resp :=
  match requireRole st req ["staff", "admin"] with
  | Except.error r => (st, r)
  | Except.ok _ => (setRoleById st id "staff", Resp.redirect "/staff")

/-- Handler `POST /staff/demote`. -/
def postStaffDemote (st : Store) (req : Req) (id : Nat) : Store × Resp :=
  match requireRole st req ["staff", "admin"] with
  | Except.error r => (st, r)
  | Except.ok _ => (setRoleById st id "user", Resp.redirect "/staff")

/-- Handler `POST /staff/delete`: deletes the user row plus that user's `targets`,
`statuses` and `metrics` rows — and nothing else (`orders` and `tickets`
keep any rows referencing the deleted id). -/
def postStaffDelete (st : Store) (req : Req) (id : Nat) : Store × Resp :=
  match requireRole st req ["staff", "admin"] with
  | Except.error r => (st, r)
  | Except.ok _ =>
    ({ st with
        users := st.users.filter (fun u => u.id != id),
        targets := st.targets.filter (fun t => t.user_id != id),
        statuses := st.statuses.filter (fun s => s.user_id != id),
        metrics := st.metrics.filter (fun m => m.user_id != id) },
     Resp.redirect "/staff")

/-- Handler `POST /staff/metrics`: clamps the submitted deltas at 0
(`Math.max(0, Number(x || 0))`; the number fields are modelled as parsed
integers, absent as `none`) and appends a fresh snapshot row when
`user_id` is nonzero. -/
def postStaffMetrics (st : Store) (req : Req) (user_id : Nat)
    (add_likes add_follows : Option Int) : Store × Resp :=
  match requireRole st req ["staff", "admin"] with
  | Except.error r => (st, r)
  | Except.ok _ =>
    let al := max 0 (add_likes.getD 0)
    let af := max 0 (add_follows.getD 0)
    if user_id == 0 then (st, Resp.redirect "/staff")
    else (insertMetric st user_id al af, Resp.redirect "/staff")

/-- Handler `POST /staff/toggle_unsubscribe`. -/
def postStaffToggleUnsubscribe (st : Store) (req : Req) (id : Nat) :
    Store × Resp :=
  match requireRole st req ["staff", "admin"] with
  | Except.error r => (st, r)
  | Except.ok _ =>
    match st.users.find? (fun u => u.id == id) with
    | none => (st, Resp.redirect "/staff")
    | some u =>
      ({ st with
          users := st.users.map
            (fun w =>
              if w.id == id then
                { w with unsubscribed := if u.unsubscribed != 0 then 0 else 1 }
              else w) },
       Resp.redirect "/staff")

/- ------------------------- Performance views ------------------------- -/

/-- The auto-seeding loop of the performance pages:
`for (i=0;i<6;i++) INSERT INTO metrics VALUES (uid, 10+i*5, 8+i*3)`. -/
def seedMetricsLoop (st : Store) (uid : Nat) : Store :=
  (List.range 6).foldl
    (fun s (i : Nat) =>
      insertMetric s uid (10 + (i : Int) * 5) (8 + (i : Int) * 3)) st

/-- The shared body of `GET /performance` and `GET /performance/:userId`:
seeds six synthetic snapshots when the user has no metric history. -/
def performanceSeed (st : Store) (userId : Nat) : Store :=
  if (st.metrics.filter (fun m => m.user_id == userId)).isEmpty then
    seedMetricsLoop st userId
  else st

/-- Handler `GET /performance` (store effect plus rendered page). -/
def getPerformance (st : Store) (req : Req) : Store × Resp :=
  match requireRole st req ["staff", "admin"] with
  | Except.error r => (st, r)
  | Except.ok me => (performanceSeed st me.id, Resp.htmlPage)

/-- Handler `GET /performance/:userId`. -/
def getPerformanceUser (st : Store) (req : Req) (userId : Nat) : Store × Resp :=
  match requireRole st req ["staff", "admin"] with
  | Except.error r => (st, r)
  | Except.ok _ => (performanceSeed st userId, Resp.htmlPage)

/- ------------------------- All store-mutating operations ------------------------- -/

/-- One request to any route handler that can write the store (the read-only
routes are omitted: they cannot change any view counter). -/
inductive Op where
  | blogView (id : Nat)
  | signup (hash : String → String) (sess : Session)
      (name email instagram password : String)
  | contactSubmit (name email instagram message : String)
  | ticket (sess : Session) (subject message : String) (referer : Option String)
  | subscribe (email : String) (referer : Option String)
  | checkout (sess : Session) (plan_id : Nat) (ig_username notes : String)
  | createPost (req : Req) (title image excerpt body : String)
  | assignRole (req : Req) (email role : String)
  | staffAdd (hash : String → String) (req : Req) (email password name : String)
  | promote (req : Req) (id : Nat)
  | demote (req : Req) (id : Nat)
  | staffDelete (req : Req) (id : Nat)
  | staffMetrics (req : Req) (user_id : Nat) (add_likes add_follows : Option Int)
  | toggleUnsubscribe (req : Req) (id : Nat)
  | performance (req : Req)
  | performanceUser (req : Req) (userId : Nat)

/-- The store after the operation. -/
def applyOp (op : Op) (st : Store) : Store :=
  match op with
  | .blogView id => (getBlogId st id).1
  | .signup hash sess name email instagram password =>
    (postSignup hash st sess name email instagram password).st
  | .contactSubmit name email instagram message =>
    (postContactSubmit st name email instagram message).1
  | .ticket sess subject message referer =>
    (postTicket st sess subject message referer).1
  | .subscribe email referer => (postSubscribe st email referer).1
  | .checkout sess plan_id ig_username notes =>
    (postCheckout st sess plan_id ig_username notes).1
  | .createPost req title image excerpt body =>
    (postAdminCreatePost st req title image excerpt body).1
  | .assignRole req email role => (postAdminAssignRole st req email role).1
  | .staffAdd hash req email password name =>
    (postStaffAdd hash st req email password name).1
  | .promote req id => (postStaffPromote st req id).1
  | .demote req id => (postStaffDemote st req id).1
  | .staffDelete req id => (postStaffDelete st req id).1
  | .staffMetrics req user_id add_likes add_follows =>
    (postStaffMetrics st req user_id add_likes add_follows).1
  | .toggleUnsubscribe req id => (postStaffToggleUnsubscribe st req id).1
  | .performance req => (getPerformance st req).1
  | .performanceUser req userId => (getPerformanceUser st req userId).1

/-- Every post of `st` survives into `st'` (same id) with at least as many
views. -/
def postsMono (st st' : Store) : Prop :=
  ∀ p ∈ st.posts, ∃ p' ∈ st'.posts, p'.id = p.id ∧ p.views ≤ p'.views

/-- The Boolean the role gate tests: is there an authenticated principal whose
role lies in the allow-list?  (`requireRole` rejects exactly when this is
`false`: the code's `!u || !roles.includes(u.role)`.) -/
def roleGateOk (st : Store) (req : Req) (roles : List String) : Bool :=
  match authed st req.session with
  | some u => roles.contains u.role
  | none => false

/- ------------------------- Concrete fixtures for witnesses ------------------------- -/

/-- A demo `'user'`-role account. -/
def wUser : User :=
  { id := 1, email := "a@b.com", password_hash := "pw1", name := "A",
    role := "user", instagram := "@a", unsubscribed := 0 }

/-- A demo `'admin'`-role account. -/
def wAdmin : User :=
  { id := 2, email := "admin@smm.local", password_hash := "admin123",
    name := "Admin", role := "admin", instagram := "@admin", unsubscribed := 0 }

/-- A demo `'staff'`-role account. -/
def wStaff : User :=
  { id := 3, email := "staff@smm.local", password_hash := "staff123",
    name := "Team Member", role := "staff", instagram := "@staff",
    unsubscribed := 0 }

/-- A demo plan. -/
def wPlan : Plan :=
  { id := 1, name := "Kickoff Plan", price_usd := 49, features := [] }

/-- A demo post with 3 views. -/
def wPost : Post :=
  { id := 1, title := "T", author := "A", image := "", excerpt := "",
    body := "", views := 3 }

/-- A demo paid order of `wUser` for `wPlan`. -/
def wOrder : Order :=
  { id := 1, user_id := 1, plan_id := 1, ig_username := "@a", notes := "",
    status := "paid" }

/-- A demo metric snapshot of `wUser`. -/
def wMetric : Metric := { id := 1, user_id := 1, likes := 5, follows := 2 }

/-- A demo targets row of `wUser`. -/
def wTarget : Target :=
  { id := 1, user_id := 1, niche := "", competitors := "", hashtags := "",
    geo := "", notes := "" }

/-- A demo statuses row of `wUser`. -/
def wStatus : StatusRow :=
  { id := 1, user_id := 1, following_status := "Select status",
    like_enabled := 0, follow_enabled := 1, comment_enabled := 0,
    dm_enabled := 0, hashtags := "", team_complaint := "",
    client_complaint := "", complaint_explanation := "" }

/-- A demo ticket referencing `wUser`. -/
def wTicket : Ticket :=
  { id := 1, user_id := some 1, email := "a@b.com", instagram := "@a",
    subject := "s", message := "m", status := "open" }

/-- A small populated database used by the witnesses. -/
def wStore : Store :=
  { users := [wUser, wAdmin, wStaff], posts := [wPost], plans := [wPlan],
    orders := [wOrder], reviews := [], tickets := [wTicket],
    metrics := [wMetric], targets := [wTarget], statuses := [wStatus],
    subscribers := [], nextUserId := 4, nextPostId := 2, nextOrderId := 2,
    nextTicketId := 2, nextMetricId := 2, nextTargetId := 2, nextStatusId := 2,
    nextSubscriberId := 1 }

/-- A session signed in as the `'user'`-role account. -/
def wUserSession : Session :=
  { uid := some 1, failed_login := none, login_locked_until := none }

/-- An HTML-accepting request from the `'user'`-role session. -/
def wUserHtmlReq : Req :=
  { session := wUserSession, accept := some "text/html" }

/-- A session signed in as the staff account. -/
def wStaffSession : Session :=
  { uid := some 3, failed_login := none, login_locked_until := none }

/-- An HTML-accepting request from the staff session. -/
def wStaffHtmlReq : Req :=
  { session := wStaffSession, accept := some "text/html" }

/-- A fresh, signed-out session. -/
def wAnonSession : Session :=
  { uid := none, failed_login := none, login_locked_until := none }

/- ------------------------- Shared lemmas ------------------------- -/

theorem requireRole_eq_error_of_gate_false (st : Store) (req : Req)
    (roles : List String) (h : roleGateOk st req roles = false) :
    requireRole st req roles = Except.error (rejectResp req) := by
  unfold roleGateOk at h
  unfold requireRole
  cases hA : authed st req.session with
  | none => rfl
  | some u =>
    rw [hA] at h
    simp at h
    simp [h]

/-- The credential test of `POST /login`
(`row && row.password_hash === sha256(password)`). -/
def credentialsOk (hash : String → String) (st : Store)
    (email password : String) : Bool :=
  match st.users.find? (fun u => u.email == toLowerStr email) with
  | some row => row.password_hash == hash password
  | none => false

theorem postLogin_fail (hash : String → String) (st : Store) (sess : Session)
    (now : Nat) (email password : String)
    (hlock : lockActive sess now = false)
    (hcred : credentialsOk hash st email password = false) :
    postLogin hash st sess now email password =
      { sess := loginFailSess sess now,
        resp := Resp.loginPage (some LoginError.invalidCredentials),
        usersRead := true } := by
  unfold postLogin
  unfold credentialsOk at hcred
  cases hF : st.users.find? (fun u => u.email == toLowerStr email) with
  | none => simp [hlock, hF]
  | some row =>
    rw [hF] at hcred
    simp at hcred
    simp [hlock, hF, hcred]

/-- The spec-side reading of the admin aggregate: "the sum of plan prices
taken over exactly the orders whose status is the string `'paid'`" — each
paid order contributes the price of the plan its `plan_id` references. -/
def specPaidSum (st : Store) : Rat :=
  ((st.orders.filter (fun o => o.status == "paid")).map
    (fun o =>
      (((st.plans.find? (fun p => p.id == o.plan_id)).map Plan.price_usd).getD 0))).sum

theorem plans_filter_eq_singleton (plans : List Plan) (x : Nat) (p : Plan)
    (hnd : List.Pairwise (fun a b => a.id ≠ b.id) plans)
    (hp : p ∈ plans) (hid : p.id = x) :
    plans.filter (fun q => q.id == x) = [p] := by
  induction plans with
  | nil => cases hp
  | cons a rest ih =>
    rcases List.pairwise_cons.mp hnd with ⟨ha, hrest⟩
    rcases List.mem_cons.mp hp with hpa | hpr
    · subst hpa
      have hhead : (p.id == x) = true := by simp [hid]
      have htail : rest.filter (fun q => q.id == x) = [] := by
        apply List.filter_eq_nil_iff.mpr
        intro q hq
        have hne : p.id ≠ q.id := ha q hq
        simp only [beq_iff_eq]
        omega
      simp [List.filter_cons, hhead, htail]
    · have hne : a.id ≠ p.id := ha p hpr
      have hhead : (a.id == x) = false := by
        simp only [beq_eq_false_iff_ne, ne_eq]
        omega
      simp [List.filter_cons, hhead, ih hrest hpr]

theorem plans_find_eq_some (plans : List Plan) (x : Nat) (p : Plan)
    (hnd : List.Pairwise (fun a b => a.id ≠ b.id) plans)
    (hp : p ∈ plans) (hid : p.id = x) :
    plans.find? (fun q => q.id == x) = some p := by
  induction plans with
  | nil => cases hp
  | cons a rest ih =>
    rcases List.pairwise_cons.mp hnd with ⟨ha, hrest⟩
    rcases List.mem_cons.mp hp with hpa | hpr
    · subst hpa
      have hhead : (p.id == x) = true := by simp [hid]
      simp [List.find?_cons, hhead]
    · have hne : a.id ≠ p.id := ha p hpr
      have hhead : (a.id == x) = false := by
        simp only [beq_eq_false_iff_ne, ne_eq]
        omega
      simp [List.find?_cons, hhead, ih hrest hpr]

theorem paid_sum_aux (plans : List Plan) (l : List Order)
    (hnd : List.Pairwise (fun a b => a.id ≠ b.id) plans)
    (hex : ∀ o ∈ l, ∃ p ∈ plans, p.id = o.plan_id) :
    (l.flatMap
      (fun o => (plans.filter (fun p => p.id == o.plan_id)).map Plan.price_usd)).sum
      = (l.map
        (fun o =>
          (((plans.find? (fun p => p.id == o.plan_id)).map Plan.price_usd).getD 0))).sum := by
  induction l with
  | nil => simp
  | cons o rest ih =>
    obtain ⟨p, hp, hpid⟩ := hex o (List.mem_cons_self o rest)
    have h1 := plans_filter_eq_singleton plans o.plan_id p hnd hp hpid
    have h2 := plans_find_eq_some plans o.plan_id p hnd hp hpid
    have h3 := ih (fun q hq => hex q (List.mem_cons_of_mem o hq))
    simp [List.flatMap_cons, h1, h2, h3]

theorem posts_find_updated (posts : List Post) (id : Nat) (p : Post)
    (hnd : List.Pairwise (fun a b => a.id ≠ b.id) posts)
    (hp : p ∈ posts) (hid : p.id = id) :
    (posts.map
      (fun q => if q.id == id then { q with views := q.views + 1 } else q)).find?
        (fun q => q.id == id) = some { p with views := p.views + 1 } := by
  induction posts with
  | nil => cases hp
  | cons a rest ih =>
    rcases List.pairwise_cons.mp hnd with ⟨ha, hrest⟩
    rcases List.mem_cons.mp hp with hpa | hpr
    · subst hpa
      rw [List.map_cons, List.find?_cons_of_pos _ (by simp [hid])]
      simp [hid]
    · have hne : a.id ≠ id := by
        have := ha p hpr
        omega
      rw [List.map_cons, List.find?_cons_of_neg _ (by simp [hne])]
      exact ih hrest hpr

theorem posts_map_id_of_no_match (posts : List Post) (id : Nat)
    (h : ∀ p ∈ posts, p.id ≠ id) :
    posts.map
      (fun q => if q.id == id then { q with views := q.views + 1 } else q)
      = posts := by
  induction posts with
  | nil => rfl
  | cons a rest ih =>
    have hne : a.id ≠ id := h a (List.mem_cons_self a rest)
    rw [List.map_cons]
    congr 1
    · simp [hne]
    · exact ih (fun p hp => h p (List.mem_cons_of_mem a hp))

theorem posts_find_none (posts : List Post) (id : Nat)
    (h : ∀ p ∈ posts, p.id ≠ id) :
    posts.find? (fun q => q.id == id) = none := by
  apply List.find?_eq_none.mpr
  intro p hp
  simp only [beq_eq_false_iff_ne, ne_eq, beq_iff_eq]
  exact h p hp

theorem getBlogId_eq_of_find (st : Store) (id : Nat) (p' : Post)
    (hfind : (st.posts.map
      (fun q => if q.id == id then { q with views := q.views + 1 } else q)).find?
        (fun q => q.id == id) = some p') :
    getBlogId st id =
      ({ st with posts := st.posts.map (fun q => if q.id == id then { q with views := q.views + 1 } else q) },
        Resp.blogPage p') := by
  unfold getBlogId
  simp only [hfind]

theorem getBlogId_eq_of_find_none (st : Store) (id : Nat)
    (hfind : (st.posts.map
      (fun q => if q.id == id then { q with views := q.views + 1 } else q)).find?
        (fun q => q.id == id) = none) :
    getBlogId st id =
      ({ st with posts := st.posts.map (fun q => if q.id == id then { q with views := q.views + 1 } else q) },
        Resp.notFound "Not found") := by
  unfold getBlogId
  simp only [hfind]

theorem postsMono_of_posts_eq {st st' : Store} (h : st'.posts = st.posts) :
    postsMono st st' := by
  intro p hp
  exact ⟨p, h ▸ hp, rfl, le_refl _⟩

theorem postsMono_of_append {st st' : Store} (l : List Post)
    (h : st'.posts = st.posts ++ l) : postsMono st st' := by
  intro p hp
  refine ⟨p, ?_, rfl, le_refl _⟩
  rw [h]
  exact List.mem_append_left _ hp

theorem postsMono_of_incr {st st' : Store} (id : Nat)
    (h : st'.posts = st.posts.map (fun q => if q.id == id then { q with views := q.views + 1 } else q)) :
    postsMono st st' := by
  intro p hp
  refine ⟨if p.id == id then { p with views := p.views + 1 } else p, ?_, ?_, ?_⟩
  · rw [h]
    exact List.mem_map_of_mem _ hp
  · by_cases hc : (p.id == id) = true <;> simp [hc]
  · by_cases hc : (p.id == id) = true <;> simp [hc]

theorem getBlogId_store (st : Store) (id : Nat) :
    (getBlogId st id).1 =
      { st with posts := st.posts.map (fun q => if q.id == id then { q with views := q.views + 1 } else q) } := by
  show (getBlogId st id).1 = _
  unfold getBlogId
  refine Eq.trans ?_ rfl
  exact match hF : List.find? (fun p => p.id == id)
      (st.posts.map
        (fun p => if p.id == id then { p with views := p.views + 1 } else p)) with
    | none => by simp only [hF]
    | some post => by simp only [hF]

theorem insertStatusIgnore_posts (st : Store) (uid : Nat) :
    (insertStatusIgnore st uid).posts = st.posts := by
  unfold insertStatusIgnore
  split <;> rfl

theorem insertTargets_posts (st : Store) (uid : Nat)
    (niche competitors hashtags geo notes : String) :
    (insertTargets st uid niche competitors hashtags geo notes).posts
      = st.posts := rfl

theorem insertMetric_posts (st : Store) (uid : Nat) (likes follows : Int) :
    (insertMetric st uid likes follows).posts = st.posts := rfl

theorem postSignup_posts (hash : String → String) (st : Store) (sess : Session)
    (name email instagram password : String) :
    (postSignup hash st sess name email instagram password).st.posts
      = st.posts := by
  unfold postSignup
  split_ifs <;>
    simp [insertMetric_posts, insertTargets_posts, insertStatusIgnore_posts]

theorem postStaffAdd_posts (hash : String → String) (st : Store) (req : Req)
    (email password name : String) :
    (postStaffAdd hash st req email password name).1.posts = st.posts := by
  unfold postStaffAdd
  split
  · rfl
  · split_ifs <;>
      simp [insertMetric_posts, insertStatusIgnore_posts]

theorem seedMetricsLoop_posts (st : Store) (uid : Nat) :
    (seedMetricsLoop st uid).posts = st.posts := by
  unfold seedMetricsLoop
  generalize List.range 6 = l
  induction l generalizing st with
  | nil => rfl
  | cons i l ih =>
    rw [List.foldl_cons]
    exact ih _

theorem performanceSeed_posts (st : Store) (uid : Nat) :
    (performanceSeed st uid).posts = st.posts := by
  unfold performanceSeed
  split
  · exact seedMetricsLoop_posts st uid
  · rfl

theorem applyOp_postsMono (op : Op) (st : Store) :
    postsMono st (applyOp op st) := by
  cases op with
  | blogView id =>
    exact postsMono_of_incr id (by rw [applyOp, getBlogId_store])
  | signup hash sess name email instagram password =>
    exact postsMono_of_posts_eq (postSignup_posts hash st sess name email
      instagram password)
  | contactSubmit name email instagram message =>
    exact postsMono_of_posts_eq rfl
  | ticket sess subject message referer =>
    apply postsMono_of_posts_eq
    show (postTicket st sess subject message referer).1.posts = st.posts
    unfold postTicket
    split <;> rfl
  | subscribe email referer =>
    apply postsMono_of_posts_eq
    show (postSubscribe st email referer).1.posts = st.posts
    by_cases hc : (email.trim == "") = true <;> simp [postSubscribe, hc]
  | checkout sess plan_id ig_username notes =>
    apply postsMono_of_posts_eq
    show (postCheckout st sess plan_id ig_username notes).1.posts = st.posts
    unfold postCheckout
    split
    · rfl
    · split <;> rfl
  | createPost req title image excerpt body =>
    show postsMono st (postAdminCreatePost st req title image excerpt body).1
    unfold postAdminCreatePost
    split
    · exact postsMono_of_posts_eq rfl
    · split_ifs
      · exact postsMono_of_posts_eq rfl
      · exact postsMono_of_append _ rfl
      · exact postsMono_of_append _ rfl
  | assignRole req email role =>
    apply postsMono_of_posts_eq
    show (postAdminAssignRole st req email role).1.posts = st.posts
    unfold postAdminAssignRole
    split
    · rfl
    · by_cases hc : (toLowerStr email == "") = true <;> simp [hc]
  | staffAdd hash req email password name =>
    exact postsMono_of_posts_eq (postStaffAdd_posts hash st req email password
      name)
  | promote req id =>
    apply postsMono_of_posts_eq
    show (postStaffPromote st req id).1.posts = st.posts
    unfold postStaffPromote setRoleById
    split <;> rfl
  | demote req id =>
    apply postsMono_of_posts_eq
    show (postStaffDemote st req id).1.posts = st.posts
    unfold postStaffDemote setRoleById
    split <;> rfl
  | staffDelete req id =>
    apply postsMono_of_posts_eq
    show (postStaffDelete st req id).1.posts = st.posts
    unfold postStaffDelete
    split <;> rfl
  | staffMetrics req user_id add_likes add_follows =>
    apply postsMono_of_posts_eq
    show (postStaffMetrics st req user_id add_likes add_follows).1.posts
      = st.posts
    unfold postStaffMetrics
    split
    · rfl
    · by_cases hc : (user_id == 0) = true <;> simp [hc, insertMetric_posts]
  | toggleUnsubscribe req id =>
    apply postsMono_of_posts_eq
    show (postStaffToggleUnsubscribe st req id).1.posts = st.posts
    unfold postStaffToggleUnsubscribe
    split
    · rfl
    · split <;> rfl
  | performance req =>
    apply postsMono_of_posts_eq
    show (getPerformance st req).1.posts = st.posts
    unfold getPerformance
    split
    · rfl
    · exact performanceSeed_posts st _
  | performanceUser req userId =>
    apply postsMono_of_posts_eq
    show (getPerformanceUser st req userId).1.posts = st.posts
    unfold getPerformanceUser
    split
    · rfl
    · exact performanceSeed_posts st userId

/-- Entity-head property: the character list begins with one of the five
HTML entities `escapeHtml` emits. -/
def entityHead (xs : List Char) : Prop :=
  ∃ e ∈ entities, ∃ t, xs = e ++ t

/-- Structural shape of `escapeHtml` output: a sequence of harmless plain
characters (none of the five specials) and whole entities. -/
inductive EscOk : List Char → Prop
  | nil : EscOk []
  | plain (c : Char) (rest : List Char) (h1 : c ≠ '&') (h2 : c ≠ '<')
      (h3 : c ≠ '>') (h4 : c ≠ dquote) (h5 : c ≠ apos) (hr : EscOk rest) :
      EscOk (c :: rest)
  | ent (e : List Char) (rest : List Char) (he : e ∈ entities)
      (hr : EscOk rest) : EscOk (e ++ rest)

theorem escapeHtmlList_escOk (l : List Char) : EscOk (escapeHtmlList l) := by
  induction l with
  | nil => exact EscOk.nil
  | cons c rest ih =>
    show EscOk (escChar c ++ escapeHtmlList rest)
    unfold escChar
    by_cases h1 : c = '&'
    · rw [if_pos h1]
      exact EscOk.ent ampEnt _ (by simp [entities]) ih
    rw [if_neg h1]
    by_cases h2 : c = '<'
    · rw [if_pos h2]
      exact EscOk.ent ltEnt _ (by simp [entities]) ih
    rw [if_neg h2]
    by_cases h3 : c = '>'
    · rw [if_pos h3]
      exact EscOk.ent gtEnt _ (by simp [entities]) ih
    rw [if_neg h3]
    by_cases h4 : c = dquote
    · rw [if_pos h4]
      exact EscOk.ent quotEnt _ (by simp [entities]) ih
    rw [if_neg h4]
    by_cases h5 : c = apos
    · rw [if_pos h5]
      exact EscOk.ent aposEnt _ (by simp [entities]) ih
    rw [if_neg h5]
    exact EscOk.plain c _ h1 h2 h3 h4 h5 ih

theorem escOk_no_specials {xs : List Char} (h : EscOk xs) :
    ∀ c ∈ xs, c ≠ '<' ∧ c ≠ '>' ∧ c ≠ dquote ∧ c ≠ apos := by
  induction h with
  | nil =>
    intro c hc
    cases hc
  | plain d rest h1 h2 h3 h4 h5 hr ih =>
    intro c hc
    rcases List.mem_cons.mp hc with rfl | hc2
    · exact ⟨h2, h3, h4, h5⟩
    · exact ih c hc2
  | ent e rest he hr ih =>
    intro c hc
    rcases List.mem_append.mp hc with hce | hcr
    · simp only [entities, List.mem_cons, List.mem_singleton,
        List.not_mem_nil, or_false] at he
      rcases he with rfl | rfl | rfl | rfl | rfl
      · exact (by decide :
          ∀ x ∈ ampEnt, x ≠ '<' ∧ x ≠ '>' ∧ x ≠ dquote ∧ x ≠ apos) c hce
      · exact (by decide :
          ∀ x ∈ ltEnt, x ≠ '<' ∧ x ≠ '>' ∧ x ≠ dquote ∧ x ≠ apos) c hce
      · exact (by decide :
          ∀ x ∈ gtEnt, x ≠ '<' ∧ x ≠ '>' ∧ x ≠ dquote ∧ x ≠ apos) c hce
      · exact (by decide :
          ∀ x ∈ quotEnt, x ≠ '<' ∧ x ≠ '>' ∧ x ≠ dquote ∧ x ≠ apos) c hce
      · exact (by decide :
          ∀ x ∈ aposEnt, x ≠ '<' ∧ x ≠ '>' ∧ x ≠ dquote ∧ x ≠ apos) c hce
    · exact ih c hcr

theorem no_amp_split (etl rest l1 l2 : List Char) (hno : '&' ∉ etl)
    (heq : etl ++ rest = l1 ++ '&' :: l2) :
    ∃ l1', l1 = etl ++ l1' ∧ rest = l1' ++ '&' :: l2 := by
  induction etl generalizing l1 with
  | nil =>
    exact ⟨l1, rfl, by simpa using heq⟩
  | cons c etl ih =>
    cases l1 with
    | nil =>
      simp only [List.cons_append, List.nil_append] at heq
      have hc : c = '&' := (List.cons.injEq _ _ _ _ ▸ heq).1
      exact absurd hc (by
        intro hcc
        exact hno (hcc ▸ List.mem_cons_self c etl))
    | cons x l1 =>
      simp only [List.cons_append, List.cons.injEq] at heq
      obtain ⟨hcx, heq2⟩ := heq
      have hno2 : '&' ∉ etl := fun hm => hno (List.mem_cons_of_mem c hm)
      obtain ⟨l1', hA, hB⟩ := ih l1 hno2 heq2
      exact ⟨l1', by rw [hA, ← hcx]; rfl, hB⟩

theorem escOk_amp_entity {xs : List Char} (h : EscOk xs) :
    ∀ l1 l2, xs = l1 ++ '&' :: l2 → entityHead ('&' :: l2) := by
  induction h with
  | nil =>
    intro l1 l2 heq
    cases l1 <;> simp at heq
  | plain d rest h1 h2 h3 h4 h5 hr ih =>
    intro l1 l2 heq
    cases l1 with
    | nil =>
      simp only [List.nil_append, List.cons.injEq] at heq
      exact absurd heq.1 h1
    | cons x l1 =>
      simp only [List.cons_append, List.cons.injEq] at heq
      exact ih l1 l2 heq.2
  | ent e rest he hr ih =>
    intro l1 l2 heq
    obtain ⟨etl, hetl, hnoamp⟩ : ∃ etl, e = '&' :: etl ∧ '&' ∉ etl := by
      simp only [entities, List.mem_cons, List.mem_singleton,
        List.not_mem_nil, or_false] at he
      rcases he with rfl | rfl | rfl | rfl | rfl
      · exact ⟨"amp;".data, by decide, by decide⟩
      · exact ⟨"lt;".data, by decide, by decide⟩
      · exact ⟨"gt;".data, by decide, by decide⟩
      · exact ⟨"quot;".data, by decide, by decide⟩
      · exact ⟨"#39;".data, by decide, by decide⟩
    rw [hetl, List.cons_append] at heq
    cases l1 with
    | nil =>
      simp only [List.nil_append, List.cons.injEq, true_and] at heq
      refine ⟨e, he, rest, ?_⟩
      rw [hetl, ← heq]
      rfl
    | cons x l1 =>
      simp only [List.cons_append, List.cons.injEq] at heq
      obtain ⟨l1', hA, hB⟩ := no_amp_split etl rest l1 l2 hnoamp heq.2
      exact ih l1' l2 hB

/- ------------------------- Claim theorems ------------------------- -/

/-- C1: whenever the session has no authenticated user or its role is outside
the allow-list, `requireRole` answers with a redirect to `/login` for
HTML-accepting clients and a 403 otherwise, and `POST /staff/delete` under a
failing gate leaves the entire store (users, targets, statuses, metrics,
orders, tickets, …) unchanged while responding with that same rejection. -/
theorem requireRole_rejects_and_staff_delete_writes_nothing
    (st : Store) (req : Req) (roles : List String) (id : Nat)
    (hroles : roleGateOk st req roles = false)
    (hsd : roleGateOk st req ["staff", "admin"] = false) :
    requireRole st req roles =
      Except.error
        (if acceptsHtml req.accept then Resp.redirect "/login" else Resp.forbidden)
    ∧ (postStaffDelete st req id).1 = st
    ∧ (postStaffDelete st req id).2 =
        (if acceptsHtml req.accept then Resp.redirect "/login" else Resp.forbidden) := by
  have h1 := requireRole_eq_error_of_gate_false st req roles hroles
  have h2 := requireRole_eq_error_of_gate_false st req ["staff", "admin"] hsd
  refine ⟨?_, ?_, ?_⟩
  · rw [h1]; rfl
  · unfold postStaffDelete
    rw [h2]
  · unfold postStaffDelete
    rw [h2]
    rfl

/-- C2: (a) the 6th consecutive failed login attempt (and any later one) sets
the session lockout timestamp to `Date.now() + 5` minutes and increments the
counter; (b) while the lockout timestamp lies in the future, an attempt is
rejected with the lockout message, performs no `users` lookup, leaves the
session unchanged, and the reported wait is the remaining time in seconds
rounded up; (c) that reported wait is monotonically decreasing (antitone) as
wall-clock time advances. -/
theorem login_lockout_behavior (hash : String → String) (st : Store)
    (sess : Session) (now t1 t2 l : Nat) (email password : String) :
    (lockActive sess now = false →
      credentialsOk hash st email password = false →
      5 ≤ sess.failed_login.getD 0 →
      (postLogin hash st sess now email password).sess.login_locked_until
          = some (now + 5 * 60 * 1000)
        ∧ (postLogin hash st sess now email password).sess.failed_login
          = some (sess.failed_login.getD 0 + 1))
    ∧ (sess.login_locked_until = some l → 0 < l → now < l →
      postLogin hash st sess now email password =
          { sess := sess,
            resp := Resp.loginPage
              (some (LoginError.lockedOut (waitSecOf l now))),
            usersRead := false }
        ∧ l - now ≤ 1000 * waitSecOf l now
        ∧ 1000 * (waitSecOf l now - 1) < l - now)
    ∧ (t1 ≤ t2 → waitSecOf l t2 ≤ waitSecOf l t1) := by
  refine ⟨?_, ?_, ?_⟩
  · intro hlock hcred h5
    rw [postLogin_fail hash st sess now email password hlock hcred]
    have h6 : 6 ≤ sess.failed_login.getD 0 + 1 := by omega
    simp [loginFailSess, h6]
  · intro hL h0 hnow
    have hlock : lockActive sess now = true := by
      unfold lockActive
      rw [hL]
      simp [h0, hnow]
    constructor
    · unfold postLogin
      rw [hlock]
      simp [hL]
    · unfold waitSecOf
      omega
  · intro h12
    unfold waitSecOf
    omega

/-- Witness for C2: with the demo store, a 6th consecutive failure at
`now = 1000` locks until `301000`; an attempt at `now = 1000` under a lock
until `2000` is rejected with a 1-second wait and no store read; and the wait
reported at `1500` is at most the wait reported at `1000`. -/
theorem login_lockout_behavior_witness :
    lockActive { uid := none, failed_login := some 5,
                 login_locked_until := none } 1000 = false
    ∧ credentialsOk id wStore "a@b.com" "WRONG" = false
    ∧ (postLogin id wStore
        { uid := none, failed_login := some 5, login_locked_until := none }
        1000 "a@b.com" "WRONG").sess.login_locked_until = some 301000
    ∧ postLogin id wStore
        { uid := none, failed_login := some 6, login_locked_until := some 2000 }
        1000 "a@b.com" "pw1" =
        { sess := { uid := none, failed_login := some 6,
                    login_locked_until := some 2000 },
          resp := Resp.loginPage (some (LoginError.lockedOut 1)),
          usersRead := false }
    ∧ waitSecOf 2000 1500 ≤ waitSecOf 2000 1000 := by
  refine ⟨by decide, by decide, ?_, ?_, ?_⟩
  · exact ((login_lockout_behavior id wStore
      { uid := none, failed_login := some 5, login_locked_until := none }
      1000 0 0 0 "a@b.com" "WRONG").1 (by decide) (by decide) (by decide)).1
  · exact ((login_lockout_behavior id wStore
      { uid := none, failed_login := some 6, login_locked_until := some 2000 }
      1000 0 0 2000 "a@b.com" "pw1").2.1 rfl (by decide) (by decide)).1
  · exact (login_lockout_behavior id wStore wAnonSession 0 1000 1500 2000
      "" "").2.2 (by decide)

/-- C3: for a signup with non-empty email and password, either the email is
free and then exactly one `users`, one `statuses`, one `targets` and one
initial `metrics` row are appended (all four, never a subset), every other
table is untouched, and the session is logged in as the new user (auto-login
with a redirect to `/`); or the email is taken and then the store and session
are completely unchanged and the user-visible "Email already exists" page is
rendered.  (The freshness hypothesis holds in every reachable store:
`AUTOINCREMENT` never reuses an id, so no `statuses` row can carry the
about-to-be-allocated user id.) -/
theorem signup_atomic (hash : String → String) (st : Store) (sess : Session)
    (name email instagram password : String)
    (he : (email == "") = false) (hp : (password == "") = false)
    (hfresh : st.statuses.any (fun r => r.user_id == st.nextUserId) = false) :
    (st.users.any (fun u => u.email == toLowerStr email) = false →
      (postSignup hash st sess name email instagram password).st.users
          = st.users ++
            [{ id := st.nextUserId, email := toLowerStr email,
               password_hash := hash password, name := name, role := "user",
               instagram := instagram, unsubscribed := 0 }]
        ∧ (postSignup hash st sess name email instagram password).st.statuses
          = st.statuses ++
            [{ id := st.nextStatusId, user_id := st.nextUserId,
               following_status := "Select status", like_enabled := 0,
               follow_enabled := 1, comment_enabled := 0, dm_enabled := 0,
               hashtags := "", team_complaint := "", client_complaint := "",
               complaint_explanation := "" }]
        ∧ (postSignup hash st sess name email instagram password).st.targets
          = st.targets ++
            [{ id := st.nextTargetId, user_id := st.nextUserId, niche := "",
               competitors := "", hashtags := "", geo := "", notes := "" }]
        ∧ (postSignup hash st sess name email instagram password).st.metrics
          = st.metrics ++
            [{ id := st.nextMetricId, user_id := st.nextUserId, likes := 10,
               follows := 8 }]
        ∧ (postSignup hash st sess name email instagram password).st.posts = st.posts
        ∧ (postSignup hash st sess name email instagram password).st.plans = st.plans
        ∧ (postSignup hash st sess name email instagram password).st.orders = st.orders
        ∧ (postSignup hash st sess name email instagram password).st.reviews = st.reviews
        ∧ (postSignup hash st sess name email instagram password).st.tickets = st.tickets
        ∧ (postSignup hash st sess name email instagram password).st.subscribers
          = st.subscribers
        ∧ (postSignup hash st sess name email instagram password).sess
          = { sess with uid := some st.nextUserId }
        ∧ (postSignup hash st sess name email instagram password).resp
          = Resp.redirect "/")
    ∧ (st.users.any (fun u => u.email == toLowerStr email) = true →
      (postSignup hash st sess name email instagram password).st = st
        ∧ (postSignup hash st sess name email instagram password).sess = sess
        ∧ (postSignup hash st sess name email instagram password).resp
          = Resp.signupPage (some "Email already exists")) := by
  constructor
  · intro hdup
    have hfresh1 : st.statuses.any
        (fun r => r.user_id == st.nextUserId) ≠ true := by
      simp [hfresh]
    unfold postSignup
    simp only [he, hp, Bool.or_self, Bool.false_or, if_false, hdup,
      Bool.false_eq_true, insertMetric, insertTargets, insertStatusIgnore]
    simp [hfresh1]
  · intro hdup
    unfold postSignup
    simp [he, hp, hdup]

/-- Witness for C3: a fresh signup on the demo store creates all four rows
and auto-logs-in; re-signing-up with the taken email `a@b.com` changes
nothing and reports "Email already exists". -/
theorem signup_atomic_witness :
    ((postSignup id wStore wAnonSession "N" "X@Y.com" "@x" "pw").st.users
        = wStore.users ++
          [{ id := 4, email := "x@y.com", password_hash := "pw", name := "N",
             role := "user", instagram := "@x", unsubscribed := 0 }]
      ∧ (postSignup id wStore wAnonSession "N" "X@Y.com" "@x" "pw").st.statuses
        = wStore.statuses ++
          [{ id := 2, user_id := 4, following_status := "Select status",
             like_enabled := 0, follow_enabled := 1, comment_enabled := 0,
             dm_enabled := 0, hashtags := "", team_complaint := "",
             client_complaint := "", complaint_explanation := "" }]
      ∧ (postSignup id wStore wAnonSession "N" "X@Y.com" "@x" "pw").st.targets
        = wStore.targets ++
          [{ id := 2, user_id := 4, niche := "", competitors := "",
             hashtags := "", geo := "", notes := "" }]
      ∧ (postSignup id wStore wAnonSession "N" "X@Y.com" "@x" "pw").st.metrics
        = wStore.metrics ++ [{ id := 2, user_id := 4, likes := 10, follows := 8 }]
      ∧ (postSignup id wStore wAnonSession "N" "X@Y.com" "@x" "pw").sess
        = { wAnonSession with uid := some 4 }
      ∧ (postSignup id wStore wAnonSession "N" "X@Y.com" "@x" "pw").resp
        = Resp.redirect "/")
    ∧ ((postSignup id wStore wAnonSession "N" "a@b.com" "@x" "pw").st = wStore
      ∧ (postSignup id wStore wAnonSession "N" "a@b.com" "@x" "pw").resp
        = Resp.signupPage (some "Email already exists")) := by
  have h1 := (signup_atomic id wStore wAnonSession "N" "X@Y.com" "@x" "pw"
    (by decide) (by decide) (by decide)).1 (by decide)
  have h2 := (signup_atomic id wStore wAnonSession "N" "a@b.com" "@x" "pw"
    (by decide) (by decide) (by decide)).2 (by decide)
  refine ⟨⟨?_, ?_, ?_, ?_, ?_, ?_⟩, ⟨h2.1, h2.2.2⟩⟩
  · rw [h1.1]; decide
  · rw [h1.2.1]; decide
  · rw [h1.2.2.1]; decide
  · rw [h1.2.2.2.1]; decide
  · exact h1.2.2.2.2.2.2.2.2.2.2.1
  · exact h1.2.2.2.2.2.2.2.2.2.2.2

/-- C4 counterexample: a `POST /login` carrying credentials that match a
stored user (the digest of `"pw1"` equals the stored digest for `a@b.com`)
is nonetheless rejected when the session is under an active lockout: the
handler answers with the lockout page, stores no user id in the session and
performs no redirect, refuting the claim's unconditional quantification over
all matching-credential requests. -/
theorem login_matching_credentials_not_always_redirected :
    credentialsOk id wStore "a@b.com" "pw1" = true
    ∧ postLogin id wStore
        { uid := none, failed_login := some 6, login_locked_until := some 2000 }
        1000 "a@b.com" "pw1" =
        { sess := { uid := none, failed_login := some 6,
                    login_locked_until := some 2000 },
          resp := Resp.loginPage (some (LoginError.lockedOut 1)),
          usersRead := false }
    ∧ (postLogin id wStore
        { uid := none, failed_login := some 6, login_locked_until := some 2000 }
        1000 "a@b.com" "pw1").sess.uid ≠ some 1
    ∧ (postLogin id wStore
        { uid := none, failed_login := some 6, login_locked_until := some 2000 }
        1000 "a@b.com" "pw1").resp ≠ Resp.redirect "/" := by
  decide

/-- C4 (amended): for every `POST /login` made while the session is not under
an active lockout, if the digest of the submitted password equals the stored
digest for the normalized email, the handler resets the failed-attempt
counter and the lockout, stores the user id in the session, and redirects by
role: admin to `/dashboard`, staff to `/staff`, anything else (in particular
`user`) to `/`. -/
theorem login_success_redirects_by_role (hash : String → String) (st : Store)
    (sess : Session) (now : Nat) (email password : String) (u : User)
    (hlock : lockActive sess now = false)
    (hfind : st.users.find? (fun v => v.email == toLowerStr email) = some u)
    (hpw : (u.password_hash == hash password) = true) :
    (postLogin hash st sess now email password).sess
        = { uid := some u.id, failed_login := some 0,
            login_locked_until := none }
    ∧ (postLogin hash st sess now email password).usersRead = true
    ∧ (postLogin hash st sess now email password).resp
        = Resp.redirect
            (if u.role == "admin" then "/dashboard"
             else if u.role == "staff" then "/staff" else "/")
    ∧ (u.role = "admin" →
        (postLogin hash st sess now email password).resp
          = Resp.redirect "/dashboard")
    ∧ (u.role = "staff" →
        (postLogin hash st sess now email password).resp
          = Resp.redirect "/staff")
    ∧ (u.role ≠ "admin" → u.role ≠ "staff" →
        (postLogin hash st sess now email password).resp
          = Resp.redirect "/") := by
  have hres : postLogin hash st sess now email password =
      { sess := { uid := some u.id, failed_login := some 0,
                  login_locked_until := none },
        resp := Resp.redirect
          (if u.role == "admin" then "/dashboard"
           else if u.role == "staff" then "/staff" else "/"),
        usersRead := true } := by
    unfold postLogin
    simp [hlock, hfind, hpw]
  refine ⟨by rw [hres], by rw [hres], by rw [hres], ?_, ?_, ?_⟩
  · intro hrole
    rw [hres]
    simp [hrole]
  · intro hrole
    rw [hres]
    simp [hrole]
  · intro h1 h2
    rw [hres]
    simp [h1, h2]

/-- Witness for C4 (amended): the seeded admin signing in with `admin123`
from a fresh session is sent to `/dashboard` with a reset counter. -/
theorem login_success_redirects_by_role_witness :
    lockActive wAnonSession 0 = false
    ∧ wStore.users.find?
        (fun v => v.email == toLowerStr "Admin@SMM.local") = some wAdmin
    ∧ (postLogin id wStore wAnonSession 0 "Admin@SMM.local" "admin123").sess
        = { uid := some 2, failed_login := some 0, login_locked_until := none }
    ∧ (postLogin id wStore wAnonSession 0 "Admin@SMM.local" "admin123").resp
        = Resp.redirect "/dashboard" := by
  refine ⟨by decide, by decide, ?_, ?_⟩
  · exact (login_success_redirects_by_role id wStore wAnonSession 0
      "Admin@SMM.local" "admin123" wAdmin (by decide) (by decide) (by decide)).1
  · exact (login_success_redirects_by_role id wStore wAnonSession 0
      "Admin@SMM.local" "admin123" wAdmin (by decide) (by decide)
      (by decide)).2.2.2.1 rfl

/-- C6: under a passing staff/admin gate, `POST /staff/delete` removes the
user row with the given id and exactly the `targets`, `statuses` and
`metrics` rows of that user (rows of other users survive verbatim), while
the `orders` and `tickets` tables — including any rows referencing the
deleted id — and every other table are left completely unchanged. -/
theorem staff_delete_cascades_and_frame (st : Store) (req : Req) (id : Nat)
    (me : User) (hok : requireRole st req ["staff", "admin"] = Except.ok me) :
    (postStaffDelete st req id).1.orders = st.orders
    ∧ (postStaffDelete st req id).1.tickets = st.tickets
    ∧ (∀ u : User,
        u ∈ (postStaffDelete st req id).1.users ↔ (u ∈ st.users ∧ u.id ≠ id))
    ∧ (∀ t : Target,
        t ∈ (postStaffDelete st req id).1.targets
          ↔ (t ∈ st.targets ∧ t.user_id ≠ id))
    ∧ (∀ s : StatusRow,
        s ∈ (postStaffDelete st req id).1.statuses
          ↔ (s ∈ st.statuses ∧ s.user_id ≠ id))
    ∧ (∀ m : Metric,
        m ∈ (postStaffDelete st req id).1.metrics
          ↔ (m ∈ st.metrics ∧ m.user_id ≠ id))
    ∧ (postStaffDelete st req id).1.posts = st.posts
    ∧ (postStaffDelete st req id).1.plans = st.plans
    ∧ (postStaffDelete st req id).1.reviews = st.reviews
    ∧ (postStaffDelete st req id).1.subscribers = st.subscribers
    ∧ (postStaffDelete st req id).2 = Resp.redirect "/staff" := by
  unfold postStaffDelete
  rw [hok]
  refine ⟨rfl, rfl, ?_, ?_, ?_, ?_, rfl, rfl, rfl, rfl, rfl⟩ <;>
    intro x <;> simp [List.mem_filter]

/-- Witness for C6: the staff session deleting user 1 on the demo store keeps
the paid order and the ticket that reference id 1, drops that user's metric,
target and status rows, and keeps the other two accounts. -/
theorem staff_delete_cascades_and_frame_witness :
    requireRole wStore wStaffHtmlReq ["staff", "admin"] = Except.ok wStaff
    ∧ (postStaffDelete wStore wStaffHtmlReq 1).1.orders = wStore.orders
    ∧ (postStaffDelete wStore wStaffHtmlReq 1).1.tickets = wStore.tickets
    ∧ wMetric ∉ (postStaffDelete wStore wStaffHtmlReq 1).1.metrics
    ∧ wTarget ∉ (postStaffDelete wStore wStaffHtmlReq 1).1.targets
    ∧ wStatus ∉ (postStaffDelete wStore wStaffHtmlReq 1).1.statuses
    ∧ wUser ∉ (postStaffDelete wStore wStaffHtmlReq 1).1.users
    ∧ wAdmin ∈ (postStaffDelete wStore wStaffHtmlReq 1).1.users
    ∧ wStaff ∈ (postStaffDelete wStore wStaffHtmlReq 1).1.users := by
  have h := staff_delete_cascades_and_frame wStore wStaffHtmlReq 1 wStaff rfl
  refine ⟨rfl, h.1, h.2.1, ?_, ?_, ?_, ?_, ?_, ?_⟩
  · intro hmem
    exact ((h.2.2.2.2.2.1 wMetric).mp hmem).2 rfl
  · intro hmem
    exact ((h.2.2.2.1 wTarget).mp hmem).2 rfl
  · intro hmem
    exact ((h.2.2.2.2.1 wStatus).mp hmem).2 rfl
  · intro hmem
    exact ((h.2.2.1 wUser).mp hmem).2 rfl
  · exact (h.2.2.1 wAdmin).mpr ⟨by decide, by decide⟩
  · exact (h.2.2.1 wStaff).mpr ⟨by decide, by decide⟩

/-- C8: `POST /checkout` by an authenticated user for an existing plan
appends exactly one order row whose status is hard-coded to `"paid"` (no
payment call exists to model) and redirects; an unauthenticated submission
is redirected to `/login` and a submission for a missing plan gets a 404,
in both cases with the store — in particular the orders table — unchanged. -/
theorem checkout_inserts_paid_order (st : Store) (sess : Session)
    (plan_id : Nat) (ig_username notes : String) :
    (authed st sess = none →
      postCheckout st sess plan_id ig_username notes
        = (st, Resp.redirect "/login"))
    ∧ (∀ u, authed st sess = some u →
        st.plans.find? (fun p => p.id == plan_id) = none →
        postCheckout st sess plan_id ig_username notes
          = (st, Resp.notFound "Plan not found"))
    ∧ (∀ u plan, authed st sess = some u →
        st.plans.find? (fun p => p.id == plan_id) = some plan →
        (postCheckout st sess plan_id ig_username notes).1.orders
            = st.orders ++
              [{ id := st.nextOrderId, user_id := u.id, plan_id := plan.id,
                 ig_username := ig_username, notes := notes, status := "paid" }]
        ∧ (postCheckout st sess plan_id ig_username notes).1.users = st.users
        ∧ (postCheckout st sess plan_id ig_username notes).1.posts = st.posts
        ∧ (postCheckout st sess plan_id ig_username notes).1.plans = st.plans
        ∧ (postCheckout st sess plan_id ig_username notes).1.reviews = st.reviews
        ∧ (postCheckout st sess plan_id ig_username notes).1.tickets = st.tickets
        ∧ (postCheckout st sess plan_id ig_username notes).1.metrics = st.metrics
        ∧ (postCheckout st sess plan_id ig_username notes).1.targets = st.targets
        ∧ (postCheckout st sess plan_id ig_username notes).1.statuses = st.statuses
        ∧ (postCheckout st sess plan_id ig_username notes).1.subscribers
          = st.subscribers
        ∧ (postCheckout st sess plan_id ig_username notes).2
          = Resp.redirect (if u.role == "admin" then "/dashboard" else "/")) := by
  refine ⟨?_, ?_, ?_⟩
  · intro hA
    unfold postCheckout
    rw [hA]
  · intro u hA hP
    unfold postCheckout
    rw [hA, hP]
  · intro u plan hA hP
    unfold postCheckout
    rw [hA, hP]
    exact ⟨rfl, rfl, rfl, rfl, rfl, rfl, rfl, rfl, rfl, rfl, rfl⟩

/-- Witness for C8: user 1 checking out plan 1 appends one `"paid"` order;
signed out, or with the missing plan 99, nothing is inserted. -/
theorem checkout_inserts_paid_order_witness :
    authed wStore wUserSession = some wUser
    ∧ wStore.plans.find? (fun p => p.id == 1) = some wPlan
    ∧ (postCheckout wStore wUserSession 1 "@a" "n").1.orders
      = wStore.orders ++
        [{ id := 2, user_id := 1, plan_id := 1, ig_username := "@a",
           notes := "n", status := "paid" }]
    ∧ (postCheckout wStore wUserSession 1 "@a" "n").2 = Resp.redirect "/"
    ∧ postCheckout wStore wAnonSession 1 "@a" "n"
      = (wStore, Resp.redirect "/login")
    ∧ postCheckout wStore wUserSession 99 "@a" "n"
      = (wStore, Resp.notFound "Plan not found") := by
  have h := (checkout_inserts_paid_order wStore wUserSession 1 "@a" "n").2.2
    wUser wPlan rfl rfl
  refine ⟨rfl, rfl, ?_, ?_, ?_, ?_⟩
  · rw [h.1]; decide
  · rw [h.2.2.2.2.2.2.2.2.2.2]; decide
  · exact (checkout_inserts_paid_order wStore wAnonSession 1 "@a" "n").1 rfl
  · exact (checkout_inserts_paid_order wStore wUserSession 99 "@a" "n").2.1
      wUser rfl rfl

/-- C9: under a passing staff/admin gate and a nonzero `user_id`,
`POST /staff/metrics` appends exactly one fresh metrics row whose likes and
follows are the submitted deltas clamped at zero (hence non-negative); every
pre-existing metrics row survives unchanged (nothing is updated or deleted)
and no other table moves. -/
theorem staff_metrics_appends_clamped (st : Store) (req : Req) (user_id : Nat)
    (add_likes add_follows : Option Int) (me : User)
    (hok : requireRole st req ["staff", "admin"] = Except.ok me)
    (hid : user_id ≠ 0) :
    (postStaffMetrics st req user_id add_likes add_follows).1.metrics
        = st.metrics ++
          [{ id := st.nextMetricId, user_id := user_id,
             likes := max 0 (add_likes.getD 0),
             follows := max 0 (add_follows.getD 0) }]
    ∧ (0 : Int) ≤ max 0 (add_likes.getD 0)
    ∧ (0 : Int) ≤ max 0 (add_follows.getD 0)
    ∧ (∀ m ∈ st.metrics,
        m ∈ (postStaffMetrics st req user_id add_likes add_follows).1.metrics)
    ∧ (postStaffMetrics st req user_id add_likes add_follows).1.users = st.users
    ∧ (postStaffMetrics st req user_id add_likes add_follows).1.posts = st.posts
    ∧ (postStaffMetrics st req user_id add_likes add_follows).1.orders = st.orders
    ∧ (postStaffMetrics st req user_id add_likes add_follows).1.tickets = st.tickets
    ∧ (postStaffMetrics st req user_id add_likes add_follows).2
      = Resp.redirect "/staff" := by
  have hne : (user_id == 0) = false := by
    simp [hid]
  have hres : postStaffMetrics st req user_id add_likes add_follows =
      (insertMetric st user_id (max 0 (add_likes.getD 0))
        (max 0 (add_follows.getD 0)), Resp.redirect "/staff") := by
    unfold postStaffMetrics
    rw [hok]
    simp [hne]
  rw [hres]
  refine ⟨rfl, le_max_left 0 _, le_max_left 0 _, ?_, rfl, rfl, rfl, rfl, rfl⟩
  intro m hm
  exact List.mem_append_left _ hm

/-- Witness for C9: the staff session submitting deltas `-5` (clamped to `0`)
and an absent follows field appends the snapshot `(0, 0)` for user 1 without
touching the existing snapshot. -/
theorem staff_metrics_appends_clamped_witness :
    requireRole wStore wStaffHtmlReq ["staff", "admin"] = Except.ok wStaff
    ∧ (1 : Nat) ≠ 0
    ∧ (postStaffMetrics wStore wStaffHtmlReq 1 (some (-5)) none).1.metrics
      = wStore.metrics ++ [{ id := 2, user_id := 1, likes := 0, follows := 0 }]
    ∧ wMetric ∈ (postStaffMetrics wStore wStaffHtmlReq 1 (some (-5)) none).1.metrics := by
  have h := staff_metrics_appends_clamped wStore wStaffHtmlReq 1 (some (-5))
    none wStaff rfl (by decide)
  refine ⟨rfl, by decide, ?_, ?_⟩
  · rw [h.1]; decide
  · exact h.2.2.2.1 wMetric (by decide)

/-- C5: for every store whose plans carry distinct ids (the primary key) and
whose paid orders all reference an existing plan (the only way the handlers
ever create orders), the dashboard's `totalAccounting` equals the sum of
`price_usd` over exactly the orders with status `'paid'`, and it is `0`
whenever no paid order exists. -/
theorem total_accounting_is_paid_sum (st : Store)
    (hnd : List.Pairwise (fun a b => a.id ≠ b.id) st.plans)
    (hex : ∀ o ∈ st.orders, o.status = "paid" →
      ∃ p ∈ st.plans, p.id = o.plan_id) :
    totalAccounting st = specPaidSum st
    ∧ (st.orders.filter (fun o => o.status == "paid") = [] →
        totalAccounting st = 0) := by
  constructor
  · unfold totalAccounting specPaidSum
    apply paid_sum_aux st.plans _ hnd
    intro o ho
    have hmem := List.mem_of_mem_filter ho
    have hpaid : o.status = "paid" := by
      have := List.of_mem_filter ho
      simpa using this
    exact hex o hmem hpaid
  · intro hnone
    unfold totalAccounting
    rw [hnone]
    simp

/-- Witness for C5: on the demo store (one paid \$49 order) the aggregate
matches the spec sum, and with the orders table emptied it is `0`. -/
theorem total_accounting_is_paid_sum_witness :
    totalAccounting wStore = specPaidSum wStore
    ∧ totalAccounting wStore = 49
    ∧ totalAccounting { wStore with orders := [] } = 0 := by
  have h1 := total_accounting_is_paid_sum wStore
    (by simp [wStore, wPlan])
    (by
      intro o ho hpaid
      simp only [wStore] at ho
      simp at ho
      subst ho
      exact ⟨wPlan, by simp [wStore], by decide⟩)
  have h2 := total_accounting_is_paid_sum { wStore with orders := [] }
    (by simp [wStore, wPlan])
    (by intro o ho hpaid; simp [wStore] at ho)
  refine ⟨h1.1, ?_, h2.2 (by decide)⟩
  show totalAccounting wStore = 49
  simp [totalAccounting, wStore, wOrder, wPlan]

/-- C7: `GET /blog/:id` on an existing post (post ids being distinct, as the
primary key guarantees) increments exactly that post's view counter by 1 and
renders the page with the incremented count, leaving every other post
untouched; on a missing id it returns `404 Not found` with the store —
hence every post row — unchanged; and across every store-mutating operation
of the application each post survives with a view counter that never
decreases. -/
theorem blog_view_counter (st : Store) (id : Nat) :
    (∀ p ∈ st.posts, p.id = id →
      List.Pairwise (fun a b => a.id ≠ b.id) st.posts →
      (getBlogId st id).2 = Resp.blogPage { p with views := p.views + 1 }
      ∧ { p with views := p.views + 1 } ∈ (getBlogId st id).1.posts
      ∧ ∀ q ∈ st.posts, q.id ≠ id → q ∈ (getBlogId st id).1.posts)
    ∧ ((∀ p ∈ st.posts, p.id ≠ id) →
      (getBlogId st id).1 = st
      ∧ (getBlogId st id).2 = Resp.notFound "Not found")
    ∧ (∀ (op : Op) (st2 : Store), postsMono st2 (applyOp op st2)) := by
  refine ⟨?_, ?_, fun op st2 => applyOp_postsMono op st2⟩
  · intro p hp hid hnd
    have hfind := posts_find_updated st.posts id p hnd hp hid
    have heq := getBlogId_eq_of_find st id _ hfind
    refine ⟨by rw [heq], ?_, ?_⟩
    · rw [heq]
      show _ ∈ st.posts.map _
      have hmem := List.mem_map_of_mem
        (fun q => if q.id == id then { q with views := q.views + 1 } else q) hp
      simpa [hid] using hmem
    · intro q hq hqne
      rw [heq]
      show q ∈ st.posts.map _
      have hmem := List.mem_map_of_mem
        (fun r => if r.id == id then { r with views := r.views + 1 } else r) hq
      simpa [hqne] using hmem
  · intro hnone
    have hmap := posts_map_id_of_no_match st.posts id hnone
    have hfind : (st.posts.map
        (fun q => if q.id == id then { q with views := q.views + 1 } else q)).find?
          (fun q => q.id == id) = none := by
      rw [hmap]
      exact posts_find_none st.posts id hnone
    have heq := getBlogId_eq_of_find_none st id hfind
    constructor
    · rw [heq]
      show ({ st with posts := _ } : Store) = st
      rw [hmap]
    · rw [heq]

/-- Witness for C7: viewing post 1 of the demo store (3 views) renders it
with 4 views and stores 4 views; requesting the absent post 7 returns 404
with the store unchanged; and the blog-view operation itself satisfies the
monotonicity invariant on the demo store. -/
theorem blog_view_counter_witness :
    wPost ∈ wStore.posts
    ∧ (getBlogId wStore 1).2 = Resp.blogPage { wPost with views := 4 }
    ∧ { wPost with views := 4 } ∈ (getBlogId wStore 1).1.posts
    ∧ (getBlogId wStore 7).1 = wStore
    ∧ (getBlogId wStore 7).2 = Resp.notFound "Not found"
    ∧ postsMono wStore (applyOp (Op.blogView 1) wStore) := by
  have h1 := (blog_view_counter wStore 1).1 wPost (by decide) rfl
    (by simp [wStore])
  have h2 := (blog_view_counter wStore 7).2.1
    (by
      intro p hp
      simp only [wStore] at hp
      simp at hp
      subst hp
      decide)
  have h3 := (blog_view_counter wStore 1).2.2 (Op.blogView 1) wStore
  exact ⟨by decide, h1.1, h1.2.1, h2.1, h2.2, h3⟩

/-- C10: `escapeHtml` is a total function — `null`/`undefined` (`none`) maps
to the empty string — that replaces every occurrence of each of the five
characters `& < > " '` by its entity (`&amp; &lt; &gt; &quot; &#39;`) and
passes every other character through; consequently its output never contains
`< > " '` at all, and every `&` it contains starts one of the five
entities. -/
theorem escapeHtml_total_and_safe :
    escapeHtml none = ""
    ∧ escChar '&' = ampEnt
    ∧ escChar '<' = ltEnt
    ∧ escChar '>' = gtEnt
    ∧ escChar dquote = quotEnt
    ∧ escChar apos = aposEnt
    ∧ (∀ c : Char, c ≠ '&' → c ≠ '<' → c ≠ '>' → c ≠ dquote → c ≠ apos →
        escChar c = [c])
    ∧ (∀ s : String, (escapeHtml (some s)).data = escapeHtmlList s.data)
    ∧ (∀ s : String, ∀ c ∈ (escapeHtml (some s)).data,
        c ≠ '<' ∧ c ≠ '>' ∧ c ≠ dquote ∧ c ≠ apos)
    ∧ (∀ s : String, ∀ l1 l2, (escapeHtml (some s)).data = l1 ++ '&' :: l2 →
        entityHead ('&' :: l2)) := by
  refine ⟨rfl, by decide, by decide, by decide, by decide, by decide,
    ?_, fun s => rfl, ?_, ?_⟩
  · intro c h1 h2 h3 h4 h5
    unfold escChar
    rw [if_neg h1, if_neg h2, if_neg h3, if_neg h4, if_neg h5]
  · intro s c hc
    exact escOk_no_specials (escapeHtmlList_escOk s.data) c hc
  · intro s l1 l2 heq
    exact escOk_amp_entity (escapeHtmlList_escOk s.data) l1 l2 heq

/-- Witness for C10: escaping `a<b` yields `a&lt;b`, whose single `&` heads
the entity `&lt;`; and the harmless character `x` is passed through. -/
theorem escapeHtml_total_and_safe_witness :
    escapeHtml none = ""
    ∧ escChar 'x' = ['x']
    ∧ entityHead ('&' :: "lt;b".data)
    ∧ ('a' ≠ '<' ∧ 'a' ≠ '>' ∧ 'a' ≠ dquote ∧ 'a' ≠ apos) := by
  refine ⟨escapeHtml_total_and_safe.1, ?_, ?_, ?_⟩
  · exact escapeHtml_total_and_safe.2.2.2.2.2.2.1 'x'
      (by decide) (by decide) (by decide) (by decide) (by decide)
  · exact escapeHtml_total_and_safe.2.2.2.2.2.2.2.2.2 "a<b" "a".data
      "lt;b".data (by decide)
  · exact escapeHtml_total_and_safe.2.2.2.2.2.2.2.2.1 "a<b" 'a' (by decide)

/-- Witness for C1: the `'user'`-role session posting `/staff/delete` for its
own id gets redirected to `/login` and the store is untouched. -/
theorem requireRole_rejects_and_staff_delete_writes_nothing_witness :
    roleGateOk wStore wUserHtmlReq ["staff", "admin"] = false
    ∧ ((postStaffDelete wStore wUserHtmlReq 1).1 = wStore
        ∧ (postStaffDelete wStore wUserHtmlReq 1).2 = Resp.redirect "/login") := by
  refine ⟨by decide, ?_, ?_⟩
  · exact (requireRole_rejects_and_staff_delete_writes_nothing wStore wUserHtmlReq
      ["staff", "admin"] 1 (by decide) (by decide)).2.1
  · have h := (requireRole_rejects_and_staff_delete_writes_nothing wStore wUserHtmlReq
      ["staff", "admin"] 1 (by decide) (by decide)).2.2
    rw [h]
    decide

end SmmMatrix
